import Mathlib

/-!
Verification of the FairDetect fairness-auditing library (src/fairdetect/__init__.py).

The library audits a binary classifier for disparities across the subgroups of a
sensitive attribute.  We embed the statistical core shallowly:

* a dataset is a list of feature rows (`List ℚ`) plus aligned true labels and
  predictions (`List ℕ`);
* pandas column operations become list operations; pandas `crosstab` becomes
  `crosstabCounts` / `crosstabNorm`;
* the scipy chi-square p-value is transcendental, so the survival function of
  the chi-square distribution is an abstract parameter `pval : ℕ → ℚ → ℚ`
  (degrees of freedom, statistic); the statistic itself is computed exactly
  as `scipy.stats.chisquare` does with its default expected frequencies;
* Python exceptions (`KeyError`, `IndexError`, `ValueError`) become
  `Except String`;
* `random.randrange` takes an explicit seed argument.
-/

/-! ## Basic column and crosstab operations -/

/-- Number of index-aligned pairs of the two columns equal to `(a, b)`
(the cell count of `pd.crosstab`). -/
def countPair (rs cs : List ℚ) (a b : ℚ) : ℕ :=
  ((rs.zip cs).filter (fun q => q.1 = a ∧ q.2 = b)).length

/-- Sorted list of the distinct values of a column, ascending
(the index of `pd.crosstab` / `value_counts`). -/
def distinctSorted (l : List ℚ) : List ℚ :=
  l.dedup.insertionSort (· ≤ ·)

/-- `pd.crosstab(rs, cs)`: one row per distinct value of `rs`, one column per
distinct value of `cs`, cells holding pair counts. -/
def crosstabCounts (rs cs : List ℚ) : List (ℚ × List ℕ) :=
  (distinctSorted rs).map (fun a => (a, (distinctSorted cs).map (countPair rs cs a)))

/-- `pd.crosstab(rs, cs, normalize='index')`: the count table with each cell
divided by its row total. -/
def crosstabNorm (rs cs : List ℚ) : List (ℚ × List ℚ) :=
  (crosstabCounts rs cs).map (fun row =>
    (row.1, row.2.map (fun c : ℕ => (c : ℚ) / ((row.2.sum : ℕ) : ℚ))))

/-! ## The scipy goodness-of-fit statistic

`scipy.stats.chisquare(f_obs)` with the default `f_exp` uses the mean of the
observations as the expected frequency of every cell and returns the statistic
`sum((f_obs - f_exp)**2 / f_exp)` together with the survival function of the
chi-square distribution with `len(f_obs) - 1` degrees of freedom at that
statistic. -/

/-- The chi-square goodness-of-fit statistic of `scipy.stats.chisquare` with
default expected frequencies. -/
def chisquareStat (obs : List ℚ) : ℚ :=
  let e := obs.sum / (obs.length : ℚ)
  (obs.map (fun o => (o - e) ^ 2 / e)).sum

/-! ## Verdict chains

The library prints a four-tier verdict from a p-value at three sites:
`ability_metrics` (lines 296-304), the representation report in
`identify_bias` (lines 434-441) and the predictive report in `identify_bias`
(lines 448-455).  Each site is its own `if/elif/elif/else` chain in the
source; we embed each chain separately. -/

/-- The four possible verdict messages. -/
inductive Verdict where
  | reject99 : Verdict
  | reject95 : Verdict
  | reject90 : Verdict
  | accept : Verdict
deriving DecidableEq, Repr

/-- Strength of a verdict: 3 for rejection at 99% confidence down to 0 for
accepting the null hypothesis. -/
def Verdict.tier : Verdict → ℕ
  | .reject99 => 3
  | .reject95 => 2
  | .reject90 => 1
  | .accept => 0

/-- The `if/elif` chain of `ability_metrics` (source lines 297-304). -/
def abilityVerdict (p : ℚ) : Verdict :=
  if p ≤ 1/100 then .reject99
  else if p ≤ 5/100 then .reject95
  else if p ≤ 1/10 then .reject90
  else .accept

/-- The `if/elif` chain on `rep_p` in `identify_bias` (source lines 434-441). -/
def repVerdict (p : ℚ) : Verdict :=
  if p ≤ 1/100 then .reject99
  else if p ≤ 5/100 then .reject95
  else if p ≤ 1/10 then .reject90
  else .accept

/-- The `if/elif` chain on `pred_p` in `identify_bias` (source lines 448-455). -/
def predVerdict (p : ℚ) : Verdict :=
  if p ≤ 1/100 then .reject99
  else if p ≤ 5/100 then .reject95
  else if p ≤ 1/10 then .reject90
  else .accept

/-- C2: the verdict chains at the three sites agree, map each p-value range to
the tier the spec states, and are antitone in the p-value: a smaller p-value
never gets a weaker tier. -/
theorem verdict_tiers_and_monotone (p q : ℚ) (hpq : p ≤ q) :
    (abilityVerdict p = repVerdict p ∧ abilityVerdict p = predVerdict p) ∧
    (p ≤ 1/100 → abilityVerdict p = .reject99) ∧
    (1/100 < p → p ≤ 5/100 → abilityVerdict p = .reject95) ∧
    (5/100 < p → p ≤ 1/10 → abilityVerdict p = .reject90) ∧
    (1/10 < p → abilityVerdict p = .accept) ∧
    (abilityVerdict q).tier ≤ (abilityVerdict p).tier := by
  unfold abilityVerdict repVerdict predVerdict
  constructor
  · exact ⟨rfl, rfl⟩
  refine ⟨?_, ?_, ?_, ?_, ?_⟩
  · intro h; rw [if_pos h]
  · intro h1 h2; rw [if_neg (by linarith), if_pos h2]
  · intro h1 h2; rw [if_neg (by linarith), if_neg (by linarith), if_pos h2]
  · intro h; rw [if_neg (by linarith), if_neg (by linarith), if_neg (by linarith)]
  · split_ifs <;> simp [Verdict.tier] <;> linarith

/-- Witness for C2 at p = 1/200, q = 1/2. -/
theorem verdict_tiers_and_monotone_witness :
    ((1 : ℚ)/200 ≤ 1/2) ∧
    ((abilityVerdict (1/200) = repVerdict (1/200) ∧
      abilityVerdict (1/200) = predVerdict (1/200)) ∧
     ((1 : ℚ)/200 ≤ 1/100 → abilityVerdict (1/200) = .reject99) ∧
     ((1 : ℚ)/100 < 1/200 → (1 : ℚ)/200 ≤ 5/100 → abilityVerdict (1/200) = .reject95) ∧
     ((5 : ℚ)/100 < 1/200 → (1 : ℚ)/200 ≤ 1/10 → abilityVerdict (1/200) = .reject90) ∧
     ((1 : ℚ)/10 < 1/200 → abilityVerdict (1/200) = .accept) ∧
     (abilityVerdict (1/2)).tier ≤ (abilityVerdict (1/200)).tier) :=
  ⟨by norm_num, verdict_tiers_and_monotone (1/200) (1/2) (by norm_num)⟩

/-! ## The scored dataset

`understand_shap` and `representation` both build a `full_table`: a copy of
`X_test` with a true-label column `'t'` and a prediction column `'p'`
appended (source lines 109-114 and 538-540).  We model a row of the full
table as the feature values of the `X_test` row together with the two
appended labels. -/

/-- A row of the `full_table`: the `X_test` feature values plus the appended
true label `t` and prediction `p`. -/
structure FRow where
  x : List ℚ
  t : ℕ
  p : ℕ
deriving DecidableEq, Repr

/-- `full_table = X_test.copy(); full_table['t'] = y_test;
full_table['p'] = predictions`. -/
def fullTable (X : List (List ℚ)) (y preds : List ℕ) : List FRow :=
  (X.zip (y.zip preds)).map (fun z => ⟨z.1, z.2.1, z.2.2⟩)

/-- Index of a named column in the `X_test` column list. -/
def colIdx (cols : List String) (c : String) : ℕ := cols.indexOf c

/-- Value of a named `X_test` column in a full-table row. -/
def colVal (cols : List String) (c : String) (r : FRow) : ℚ :=
  r.x.getD (colIdx cols c) 0

/-! ## Attribution analyzer (`understand_shap`) -/

/-- `misclass = full_table[full_table.t != full_table.p]` (source line 545). -/
def misclassTable (ft : List FRow) : List FRow :=
  ft.filter (fun r => r.t ≠ r.p)

/-- `affected_class = misclass[(misclass[sensitive] == affected_group) &
(misclass.p == affected_target)]` (source line 546). -/
def affectedClass (cols : List String) (sensitive : String) (g : ℚ) (a : ℕ)
    (ft : List FRow) : List FRow :=
  (misclassTable ft).filter (fun r => colVal cols sensitive r = g ∧ r.p = a)

/-- `truclass = full_table[full_table.t == full_table.p]` (source line 562). -/
def truclassTable (ft : List FRow) : List FRow :=
  ft.filter (fun r => r.t = r.p)

/-- `tru_class = truclass[(truclass[sensitive] == affected_group) &
(truclass.t == affected_target)]` (source line 563). -/
def truClassGroup (cols : List String) (sensitive : String) (g : ℚ) (a : ℕ)
    (ft : List FRow) : List FRow :=
  (truclassTable ft).filter (fun r => colVal cols sensitive r = g ∧ r.t = a)

/-- Column names surviving `.drop(['t','p',sensitive], axis=1)` on the full
table: the `X_test` columns other than `'t'`, `'p'` and the sensitive one. -/
def dropTPS (cols : List String) (sensitive : String) : List String :=
  cols.filter (fun c => ¬(c = "t" ∨ c = "p" ∨ c = sensitive))

/-- `.mean()` of one named column over a set of rows (rational division, so the
pandas `NaN` of an empty mean becomes the junk value `0`). -/
def meanCol (cols : List String) (c : String) (rs : List FRow) : ℚ :=
  (rs.map (colVal cols c)).sum / (rs.length : ℚ)

/-- `affect_character` of the true-class comparison (source line 566):
`(affected_class.drop(['t','p',sensitive],axis=1).mean()
  - tru_class.drop(['t','p',sensitive],axis=1).mean())
 / affected_class.drop(['t','p',sensitive],axis=1).mean()`,
one value per surviving column. -/
def affectCharacterTrue (cols : List String) (sensitive : String)
    (X : List (List ℚ)) (y preds : List ℕ) (g : ℚ) (a : ℕ) : List ℚ :=
  let ft := fullTable X y preds
  let ac := affectedClass cols sensitive g a ft
  let tc := truClassGroup cols sensitive g a ft
  (dropTPS cols sensitive).map
    (fun c => (meanCol cols c ac - meanCol cols c tc) / meanCol cols c ac)

/-- The spec's `misclassifiedCohort(dataset, predictions, sensitiveGroup,
predictedLabel)`: rows where predicted ≠ true, sensitive attribute ==
sensitiveGroup, and predicted label == predictedLabel. -/
def misclassifiedCohort (cols : List String) (sensitive : String) (g : ℚ)
    (a : ℕ) (ft : List FRow) : List FRow :=
  ft.filter (fun r => r.t ≠ r.p ∧ colVal cols sensitive r = g ∧ r.p = a)

/-- The spec's comparison set for `compareToTrueClass`: correctly-classified
rows where sensitive == sensitiveGroup and true label == predictedLabel. -/
def correctTrueClass (cols : List String) (sensitive : String) (g : ℚ)
    (a : ℕ) (ft : List FRow) : List FRow :=
  ft.filter (fun r => r.t = r.p ∧ colVal cols sensitive r = g ∧ r.t = a)

/-- C3: the source's `affect_character` vector equals, feature by feature, the
spec's `compareToTrueClass` formula: (mean over the misclassified cohort minus
mean over the correctly classified rows of the same sensitive group whose true
label is the cohort's predicted label) divided by the cohort mean, computed
over exactly the columns with `'t'`, `'p'` and the sensitive column dropped. -/
theorem affectCharacterTrue_eq_compareToTrueClass (cols : List String)
    (sensitive : String) (X : List (List ℚ)) (y preds : List ℕ) (g : ℚ) (a : ℕ) :
    affectCharacterTrue cols sensitive X y preds g a =
      (dropTPS cols sensitive).map (fun c =>
        (meanCol cols c (misclassifiedCohort cols sensitive g a (fullTable X y preds))
           - meanCol cols c (correctTrueClass cols sensitive g a (fullTable X y preds)))
        / meanCol cols c (misclassifiedCohort cols sensitive g a (fullTable X y preds))) := by
  have hmis : affectedClass cols sensitive g a (fullTable X y preds) =
      misclassifiedCohort cols sensitive g a (fullTable X y preds) := by
    unfold affectedClass misclassTable misclassifiedCohort
    rw [List.filter_filter]
    apply List.filter_congr
    intro r _
    by_cases h1 : r.t = r.p <;> by_cases h2 : colVal cols sensitive r = g <;>
      by_cases h3 : r.p = a <;> simp [h1, h2, h3]
  have htru : truClassGroup cols sensitive g a (fullTable X y preds) =
      correctTrueClass cols sensitive g a (fullTable X y preds) := by
    unfold truClassGroup truclassTable correctTrueClass
    rw [List.filter_filter]
    apply List.filter_congr
    intro r _
    by_cases h1 : r.t = r.p <;> by_cases h2 : colVal cols sensitive r = g <;>
      by_cases h3 : r.t = a <;> simp [h1, h2, h3]
  unfold affectCharacterTrue
  dsimp only
  rw [hmis, htru]

/-! ## Random sampling of a misclassified record

The last step of `understand_shap` (source line 586) picks
`randrange(0, len(affected_class))`.  Python's `random.randrange(0, 0)`
raises `ValueError: empty range for randrange`.  We model the random source
as an explicit seed. -/

/-- Python's `random.randrange(lo, hi)` with an explicit seed: some value in
`[lo, hi)` when the range is nonempty, otherwise the `ValueError` Python
raises. -/
def randrange (lo hi seed : ℕ) : Except String ℕ :=
  if lo < hi then .ok (lo + seed % (hi - lo)) else .error "empty range for randrange"

/-- The record-sampling step of `understand_shap`:
`randrange(0, len(affected_class))` over the misclassified cohort of the
caller-specified (sensitive group, predicted label) pair. -/
def understandShapSample (cols : List String) (sensitive : String)
    (X : List (List ℚ)) (y preds : List ℕ) (g : ℚ) (a : ℕ) (seed : ℕ) :
    Except String ℕ :=
  randrange 0 (affectedClass cols sensitive g a (fullTable X y preds)).length seed

/-- C4 counterexample: on a concrete input whose misclassified cohort for
(group = 1, predicted label = 1) is empty, the sampling step of
`understand_shap` raises the `ValueError` of an empty `randrange` range
instead of reporting a distinct empty-cohort condition. -/
theorem understandShap_empty_cohort_cex :
    affectedClass ["s", "f"] "s" 1 1 (fullTable [[0, 1]] [0] [0]) = [] ∧
    understandShapSample ["s", "f"] "s" [[0, 1]] [0] [0] 1 1 0 =
      .error "empty range for randrange" := by
  constructor <;> rfl

/-- C4 amended: whenever the misclassified cohort for the caller-specified
(sensitive group, predicted label) pair is empty, the sampling step raises
the error of `randrange` on an empty range; no distinct empty-cohort
condition is reported and no record is produced. -/
theorem understandShap_empty_cohort_raises (cols : List String)
    (sensitive : String) (X : List (List ℚ)) (y preds : List ℕ) (g : ℚ)
    (a : ℕ) (seed : ℕ)
    (h : affectedClass cols sensitive g a (fullTable X y preds) = []) :
    understandShapSample cols sensitive X y preds g a seed =
      .error "empty range for randrange" := by
  unfold understandShapSample randrange
  rw [h]
  rfl

/-- Witness for the amended C4 on an empty dataset. -/
theorem understandShap_empty_cohort_raises_witness :
    affectedClass ["s"] "s" 1 1 (fullTable ([] : List (List ℚ)) [] []) = [] ∧
    understandShapSample ["s"] "s" ([] : List (List ℚ)) [] [] 1 1 5 =
      .error "empty range for randrange" :=
  ⟨rfl, understandShap_empty_cohort_raises ["s"] "s" [] [] [] 1 1 5 rfl⟩

/-! ## The global cohort split of `understand_shap`

Source line 543:
`np.where(X_test[sensitive] == list(labels.keys())[0], labels[0], labels[1])`.
`labels` is a Python dict (insertion ordered); `list(labels.keys())[0]` is its
first key and `labels[0]`, `labels[1]` are lookups at the literal integer keys
0 and 1, raising `KeyError` when absent. -/

/-- Python dict lookup `labels[k]`: `KeyError` when the key is absent. -/
def dictGet (labels : List (ℚ × String)) (k : ℚ) : Except String String :=
  match labels.lookup k with
  | some v => .ok v
  | none => .error "KeyError"

/-- `list(labels.keys())[0]`: `IndexError` on an empty dict. -/
def firstKey (labels : List (ℚ × String)) : Except String ℚ :=
  match labels.head? with
  | some kv => .ok kv.1
  | none => .error "IndexError"

/-- `sens_glob_coh` (source line 543): every record whose sensitive value
equals the first key of the label map gets the name at key 0, every other
record the name at key 1. -/
def sensGlobCoh (cols : List String) (sensitive : String)
    (X : List (List ℚ)) (labels : List (ℚ × String)) :
    Except String (List String) := do
  let k0 ← firstKey labels
  let n0 ← dictGet labels 0
  let n1 ← dictGet labels 1
  pure (X.map (fun row => if row.getD (colIdx cols sensitive) 0 = k0 then n0 else n1))

/-- C10: the cohort split of `understand_shap` indexes the label map at the
literal keys 0 and 1: it fails with a lookup error when either key is
absent, and otherwise labels a record with the key-0 name exactly when its
sensitive value equals the map's first key, lumping every other sensitive
value (however many there are) under the key-1 name. -/
theorem sensGlobCoh_requires_keys01 (cols : List String) (sensitive : String)
    (X : List (List ℚ)) (labels : List (ℚ × String)) :
    ((labels.lookup 0 = none ∨ labels.lookup 1 = none) →
      ∃ e, sensGlobCoh cols sensitive X labels = .error e) ∧
    (∀ kv0 n0 n1, labels.head? = some kv0 → labels.lookup 0 = some n0 →
      labels.lookup 1 = some n1 →
      sensGlobCoh cols sensitive X labels =
        .ok (X.map (fun row =>
          if row.getD (colIdx cols sensitive) 0 = kv0.1 then n0 else n1))) := by
  constructor
  · intro h
    unfold sensGlobCoh firstKey dictGet
    match hh : labels.head? with
    | none => exact ⟨"IndexError", rfl⟩
    | some kv =>
      rcases h with h0 | h1
      · rw [h0]
        exact ⟨"KeyError", rfl⟩
      · match h0 : labels.lookup 0 with
        | none => exact ⟨"KeyError", rfl⟩
        | some n0 =>
          rw [h1]
          exact ⟨"KeyError", rfl⟩
  · intro kv0 n0 n1 hh h0 h1
    unfold sensGlobCoh firstKey dictGet
    rw [hh, h0, h1]
    rfl

/-- Witness for C10: with the first label-map key 0 and a third sensitive
value 2 present, the record with value 2 is lumped under the key-1 name; with
a label map lacking key 0, the call fails. -/
theorem sensGlobCoh_requires_keys01_witness :
    (∃ e, sensGlobCoh ["s"] "s" [[0], [1]] [((5 : ℚ), "x")] = .error e) ∧
    sensGlobCoh ["s"] "s" [[0], [1], [2]]
        [((0 : ℚ), "a"), (1, "b"), (2, "c")] = .ok ["a", "b", "b"] := by
  constructor
  · exact (sensGlobCoh_requires_keys01 ["s"] "s" [[0], [1]] [((5 : ℚ), "x")]).1
      (Or.inl rfl)
  · have h := (sensGlobCoh_requires_keys01 ["s"] "s" [[0], [1], [2]]
      [((0 : ℚ), "a"), (1, "b"), (2, "c")]).2 ⟨0, "a"⟩ "a" "b" rfl rfl rfl
    rw [h]
    rfl

/-! ## Ability analyzer (`ability` / `ability_metrics`)

`ability` builds a fairlearn `MetricFrame` with six metrics keyed by the
distinct values of the sensitive column (source lines 193-202); per subgroup
the collaborator computes the standard confusion-matrix ratios on that
subgroup's true labels and predictions (positive label 1; a zero denominator
yields 0, sklearn's `zero_division` default, which rational division also
gives). -/

/-- The (true label, prediction) pairs of the subgroup with sensitive value `v`. -/
def subgroupPairs (ss : List ℚ) (ts ps : List ℕ) (v : ℚ) : List (ℕ × ℕ) :=
  ((ss.zip (ts.zip ps)).filter (fun q => q.1 = v)).map Prod.snd

/-- True positives: true label 1, predicted 1. -/
def cntTP (prs : List (ℕ × ℕ)) : ℕ := (prs.filter (fun q => q.1 = 1 ∧ q.2 = 1)).length

/-- False positives: true label 0, predicted 1. -/
def cntFP (prs : List (ℕ × ℕ)) : ℕ := (prs.filter (fun q => q.1 = 0 ∧ q.2 = 1)).length

/-- True negatives: true label 0, predicted 0. -/
def cntTN (prs : List (ℕ × ℕ)) : ℕ := (prs.filter (fun q => q.1 = 0 ∧ q.2 = 0)).length

/-- False negatives: true label 1, predicted 0. -/
def cntFN (prs : List (ℕ × ℕ)) : ℕ := (prs.filter (fun q => q.1 = 1 ∧ q.2 = 0)).length

/-- `fairlearn.metrics.true_positive_rate`: TP/(TP+FN). -/
def truePositiveRate (prs : List (ℕ × ℕ)) : ℚ :=
  (cntTP prs : ℚ) / ((cntTP prs + cntFN prs : ℕ) : ℚ)

/-- `fairlearn.metrics.false_positive_rate`: FP/(FP+TN). -/
def falsePositiveRate (prs : List (ℕ × ℕ)) : ℚ :=
  (cntFP prs : ℚ) / ((cntFP prs + cntTN prs : ℕ) : ℚ)

/-- `fairlearn.metrics.true_negative_rate`: TN/(TN+FP). -/
def trueNegativeRate (prs : List (ℕ × ℕ)) : ℚ :=
  (cntTN prs : ℚ) / ((cntTN prs + cntFP prs : ℕ) : ℚ)

/-- `fairlearn.metrics.false_negative_rate`: FN/(FN+TP). -/
def falseNegativeRate (prs : List (ℕ × ℕ)) : ℚ :=
  (cntFN prs : ℚ) / ((cntFN prs + cntTP prs : ℕ) : ℚ)

/-- `fairlearn.metrics.selection_rate`: predicted positives over subgroup size. -/
def selectionRate (prs : List (ℕ × ℕ)) : ℚ :=
  ((prs.filter (fun q => q.2 = 1)).length : ℚ) / (prs.length : ℚ)

/-- `sklearn.metrics.accuracy_score`: agreeing pairs over subgroup size. -/
def accuracyScore (prs : List (ℕ × ℕ)) : ℚ :=
  ((prs.filter (fun q => q.1 = q.2)).length : ℚ) / (prs.length : ℚ)

/-- The six metrics of the `MetricFrame`, in the insertion order of the
source's `metrics=` dictionary (lines 193-199). -/
def metricFns : List (String × (List (ℕ × ℕ) → ℚ)) :=
  [("true_positive_rate_m", truePositiveRate),
   ("false_positive_rate_m", falsePositiveRate),
   ("true_negative_rate_m", trueNegativeRate),
   ("false_negative_rate_m", falseNegativeRate),
   ("selection_rate", selectionRate),
   ("accuracy_score", accuracyScore)]

/-- `metric_frame.by_group.to_dict(orient='list')` (source line 288): metric
name to per-subgroup values, subgroups in sorted order of the sensitive value. -/
def byGroupDict (ss : List ℚ) (ts ps : List ℕ) : List (String × List ℚ) :=
  metricFns.map (fun kv =>
    (kv.1, (distinctSorted ss).map (fun v => kv.2 (subgroupPairs ss ts ps v))))

/-- `list_test` (source line 290): the four rate metrics that get tested. -/
def list_test : List String :=
  ["true_positive_rate_m", "false_positive_rate_m",
   "true_negative_rate_m", "false_negative_rate_m"]

/-- `dic_p_val` (source lines 289-294): for each by-group entry whose key is in
`list_test`, the p-value of `scipy.stats.chisquare` on the rate vector scaled
by 100. -/
def dicPVal (pval : ℕ → ℚ → ℚ) (dic : List (String × List ℚ)) :
    List (String × ℚ) :=
  (dic.filter (fun kv => list_test.contains kv.1)).map
    (fun kv => (kv.1, pval (kv.2.length - 1) (chisquareStat (kv.2.map (· * 100)))))

/-- The spec's chi-square goodness-of-fit statistic against a uniform
expectation across subgroups: each cell's expected value is the total of the
observations divided by the number of subgroups. -/
def gofStatUniform (obs : List ℚ) : ℚ :=
  (obs.map (fun o =>
    (o - obs.sum / (obs.length : ℚ)) ^ 2 / (obs.sum / (obs.length : ℚ)))).sum

/-- The scipy statistic (expected value = mean of the observations) agrees
with the spec's uniform-expectation statistic. -/
theorem chisquareStat_eq_gofStatUniform (obs : List ℚ) :
    chisquareStat obs = gofStatUniform obs := rfl

/-- C1: `ability_metrics` produces exactly one p-value for each of the four
rate metrics TPR, FPR, TNR, FNR — each the chi-square goodness-of-fit p-value
(uniform expectation, degrees of freedom = number of subgroups − 1) of the
per-subgroup rate vector scaled by 100 — while selection rate and accuracy are
present in the computed metric frame but not tested. -/
theorem ability_metrics_pvalues (pval : ℕ → ℚ → ℚ) (ss : List ℚ)
    (ts ps : List ℕ) :
    (dicPVal pval (byGroupDict ss ts ps)).map Prod.fst = list_test ∧
    (byGroupDict ss ts ps).map Prod.fst =
      list_test ++ ["selection_rate", "accuracy_score"] ∧
    ∀ m ∈ list_test,
      (dicPVal pval (byGroupDict ss ts ps)).lookup m =
        some (pval ((distinctSorted ss).length - 1)
          (gofStatUniform
            ((((byGroupDict ss ts ps).lookup m).getD []).map (· * 100)))) := by
  refine ⟨?_, ?_, ?_⟩
  · simp [dicPVal, byGroupDict, metricFns, list_test]
  · simp [byGroupDict, metricFns, list_test]
  · intro m hm
    rw [← chisquareStat_eq_gofStatUniform]
    fin_cases hm <;>
      simp [dicPVal, byGroupDict, metricFns, list_test, List.lookup]

/-- Witness for C1 on a concrete two-group dataset and a concrete survival
function. -/
theorem ability_metrics_pvalues_witness :
    "true_positive_rate_m" ∈ list_test ∧
    (dicPVal (fun _ s => s) (byGroupDict [0, 1] [1, 0] [1, 1])).lookup
        "true_positive_rate_m" =
      some ((fun (_ : ℕ) (s : ℚ) => s) ((distinctSorted [0, 1]).length - 1)
        (gofStatUniform
          ((((byGroupDict [0, 1] [1, 0] [1, 1]).lookup
              "true_positive_rate_m").getD []).map (· * 100)))) :=
  ⟨by decide,
   (ability_metrics_pvalues (fun _ s => s) [0, 1] [1, 0] [1, 1]).2.2
     "true_positive_rate_m" (by decide)⟩

/-! ## Predictive disparity analyzer (`predictive`)

`predictive` (source lines 345-354) computes `sklearn.metrics.precision_score`
per label group from the `sens_df` partition and one chi-square p-value over
the precision vector scaled by 100.  sklearn's `precision_score` with its
default `zero_division='warn'` returns 0.0 (with a warning) when the group has
no predicted positives. -/

/-- The `sens_df` partition built by `representation` (source lines 112-115):
label name to the full-table rows whose sensitive value is that label's key. -/
def sensDf (cols : List String) (sensitive : String)
    (labels : List (ℚ × String)) (ft : List FRow) :
    List (String × List FRow) :=
  labels.map (fun kv => (kv.2, ft.filter (fun r => colVal cols sensitive r = kv.1)))

/-- `sklearn.metrics.precision_score(ts, ps)`: TP/(TP+FP) over the aligned
label pairs, and 0 when there are no predicted positives (the default
`zero_division='warn'` behaviour). -/
def precision_score (ts ps : List ℕ) : ℚ :=
  let pairs := ts.zip ps
  let tp := (pairs.filter (fun q => q.1 = 1 ∧ q.2 = 1)).length
  let predPos := (ps.filter (fun b => b = 1)).length
  if predPos = 0 then 0 else (tp : ℚ) / (predPos : ℚ)

/-- `predictive` (source lines 345-354): the per-group precision dictionary
and the chi-square p-value of the precision vector scaled by 100. -/
def predictive (pval : ℕ → ℚ → ℚ) (labels : List (ℚ × String))
    (sdf : List (String × List FRow)) : List (String × ℚ) × ℚ :=
  let precision_dic := labels.map (fun kv =>
    let tbl := (sdf.lookup kv.2).getD []
    (kv.2, precision_score (tbl.map (·.t)) (tbl.map (·.p))))
  (precision_dic,
   pval (precision_dic.length - 1)
     (chisquareStat (precision_dic.map (fun kv => kv.2 * 100))))

/-- The spec's `computePrecisionPerGroup`: TP/(TP+FP), undefined when the
subgroup has no predicted positives. -/
def computePrecisionPerGroup (ts ps : List ℕ) : Option ℚ :=
  let pairs := ts.zip ps
  let tp := (pairs.filter (fun q => q.1 = 1 ∧ q.2 = 1)).length
  let fp := (pairs.filter (fun q => q.1 = 0 ∧ q.2 = 1)).length
  if tp + fp = 0 then none else some ((tp : ℚ) / ((tp + fp : ℕ) : ℚ))

/-- C5 counterexample: on a concrete subgroup with zero predicted positives
the code reports the number 0 where the spec's `computePrecisionPerGroup` is
undefined; the reported precision is not an undefined sentinel. -/
theorem precision_zero_predicted_cex :
    ((([0, 0] : List ℕ).filter (fun b => b = 1)).length = 0) ∧
    precision_score [1, 0] [0, 0] = 0 ∧
    computePrecisionPerGroup [1, 0] [0, 0] = none := by
  refine ⟨rfl, rfl, rfl⟩

/-- C5 amended: for a subgroup with zero predicted-positive records the
reported precision is the number 0 (sklearn's `zero_division` default), not an
undefined sentinel; the audit is not aborted — `predictive` still returns one
precision entry per label together with a p-value. -/
theorem precision_zero_predicted_amended (ts ps : List ℕ)
    (pval : ℕ → ℚ → ℚ) (labels : List (ℚ × String))
    (sdf : List (String × List FRow))
    (h : (ps.filter (fun b => b = 1)).length = 0) :
    precision_score ts ps = 0 ∧
    ((predictive pval labels sdf).1).map Prod.fst = labels.map Prod.snd := by
  constructor
  · unfold precision_score
    rw [h]
    rfl
  · simp [predictive]

/-- Witness for the amended C5 on a concrete group. -/
theorem precision_zero_predicted_amended_witness :
    ((([0, 0, 0] : List ℕ).filter (fun b => b = 1)).length = 0) ∧
    precision_score [1, 1, 0] [0, 0, 0] = 0 ∧
    ((predictive (fun _ s => s) [((0 : ℚ), "f"), (1, "m")] []).1).map Prod.fst =
      ([((0 : ℚ), "f"), (1, "m")]).map Prod.snd :=
  ⟨rfl,
   (precision_zero_predicted_amended [1, 1, 0] [0, 0, 0] (fun _ s => s)
     [((0 : ℚ), "f"), (1, "m")] [] rfl).1,
   (precision_zero_predicted_amended [1, 1, 0] [0, 0, 0] (fun _ s => s)
     [((0 : ℚ), "f"), (1, "m")] [] rfl).2⟩

/-! ## Representation analyzer (`representation`, source lines 109-144)

The function partitions the scored table by the label map's keys, builds the
raw and row-normalized crosstabs of the sensitive column against the true
label, obtains the chi-square-independence p-value from the statistics
collaborator (`chi2_contingency`, abstracted as `pvalInd` applied to the
count table), and then computes group and label marginal frequencies.  The
marginal loops index `value_counts()` results by the label keys (`KeyError`
when a key is absent from the data) and index the two-element colour list by
the raw key (`IndexError`/`TypeError` unless the key is a valid index of a
two-element Python list). -/

/-- Whether an `Except` value is a success. -/
def exceptOk {ε α : Type} : Except ε α → Bool
  | .ok _ => true
  | .error _ => false

/-- `(series.value_counts() / series.value_counts().sum())[k]`: the relative
frequency of `k` in the column, `KeyError` when `k` does not occur. -/
def valueCountsProp (l : List ℚ) (k : ℚ) : Except String ℚ :=
  if k ∈ l then .ok ((l.count k : ℚ) / (l.length : ℚ)) else .error "KeyError"

/-- `['orange', 'blue'][i]` for a raw key `i`: valid only for the Python list
indices 0, 1, -1, -2 of a two-element list; anything else (out of range, or a
non-integer) raises. -/
def pyPick2 (i : ℚ) : Except String String :=
  if i = 0 ∨ i = -2 then .ok "orange"
  else if i = 1 ∨ i = -1 then .ok "blue"
  else .error "IndexError"

/-- The raw contingency table `pd.crosstab(full_table[sensitive],
full_table['t'])` of source line 117. -/
def representationContTable (cols : List String) (sensitive : String)
    (X : List (List ℚ)) (y preds : List ℕ) : List (ℚ × List ℕ) :=
  crosstabCounts ((fullTable X y preds).map (colVal cols sensitive))
    ((fullTable X y preds).map (fun r => ((r.t : ℚ))))

/-- The row-normalized contingency table `pd.crosstab(..., normalize='index')`
of source line 119. -/
def representationPctTable (cols : List String) (sensitive : String)
    (X : List (List ℚ)) (y preds : List ℕ) : List (ℚ × List ℚ) :=
  crosstabNorm ((fullTable X y preds).map (colVal cols sensitive))
    ((fullTable X y preds).map (fun r => ((r.t : ℚ))))

/-- The values `representation` returns (the rendered figure aside): the raw
and normalized contingency tables, the subgroup partition, the marginal
frequencies, the bar colours and the chi-square p-value. -/
structure RepOut where
  contingency : List (ℚ × List ℕ)
  contingencyPct : List (ℚ × List ℚ)
  sens_df : List (String × List FRow)
  sens_rep : List (String × ℚ)
  labl_rep : List (String × ℚ)
  colors : List String
  p : ℚ
deriving Repr, DecidableEq

/-- `representation` (source lines 109-144).  With an empty label map the
loop of lines 112-115 never runs, the `'t'` column is never created, and
line 117 raises `KeyError`.  Otherwise the crosstabs and the chi-square
p-value are computed unconditionally, after which the marginal loops of
lines 123-125 and 129-139 may raise on label keys absent from the data or
unusable as list indices. -/
def representation (pvalInd : List (ℚ × List ℕ) → ℚ) (cols : List String)
    (sensitive : String) (X : List (List ℚ)) (y preds : List ℕ)
    (labels : List (ℚ × String)) : Except String RepOut :=
  if labels.isEmpty then .error "KeyError"
  else
    (labels.mapM (fun kv : ℚ × String =>
      (do
        let sv ← valueCountsProp
          (X.map (fun row : List ℚ => row.getD (colIdx cols sensitive) 0)) kv.1
        let lv ← valueCountsProp (y.map (fun b => ((b : ℚ)))) kv.1
        pure ((kv.2, sv), (toString kv.1, lv)) :
        Except String ((String × ℚ) × (String × ℚ))))).bind (fun reps =>
      (labels.mapM (fun kv : ℚ × String => pyPick2 kv.1)).bind (fun colors =>
        .ok { contingency := representationContTable cols sensitive X y preds
              contingencyPct := representationPctTable cols sensitive X y preds
              sens_df := sensDf cols sensitive labels (fullTable X y preds)
              sens_rep := reps.map Prod.fst
              labl_rep := reps.map Prod.snd
              colors := colors
              p := pvalInd (representationContTable cols sensitive X y preds) }))

/-- Inversion of a successful `Except.bind`. -/
theorem except_bind_ok {ε α β : Type} {x : Except ε α} {f : α → Except ε β}
    {b : β} (h : x.bind f = .ok b) : ∃ a, x = .ok a ∧ f a = .ok b := by
  cases x with
  | ok a => exact ⟨a, rfl, h⟩
  | error e => cases h

/-- A successful `representation` call fixes the statistical fields of the
output: both crosstabs, the subgroup partition and the p-value. -/
theorem representation_ok_inv (pvalInd : List (ℚ × List ℕ) → ℚ)
    (cols : List String) (sensitive : String) (X : List (List ℚ))
    (y preds : List ℕ) (labels : List (ℚ × String)) (out : RepOut)
    (hok : representation pvalInd cols sensitive X y preds labels = .ok out) :
    out.contingency = representationContTable cols sensitive X y preds ∧
    out.contingencyPct = representationPctTable cols sensitive X y preds ∧
    out.p = pvalInd (representationContTable cols sensitive X y preds) ∧
    out.sens_df = sensDf cols sensitive labels (fullTable X y preds) := by
  unfold representation at hok
  by_cases he : labels.isEmpty
  · rw [if_pos he] at hok
    cases hok
  · rw [if_neg he] at hok
    rcases except_bind_ok hok with ⟨reps, _, h2⟩
    rcases except_bind_ok h2 with ⟨colors, _, h4⟩
    injection h4 with h
    subst h
    exact ⟨rfl, rfl, rfl, rfl⟩

/-- Membership transfers into the sorted distinct values. -/
theorem mem_distinctSorted {a : ℚ} {l : List ℚ} (h : a ∈ l) :
    a ∈ distinctSorted l := by
  unfold distinctSorted
  exact (List.perm_insertionSort _ _).mem_iff.mpr (List.mem_dedup.mpr h)

/-- C6 counterexample: with sensitive values {0, 1, 2} and a label map
covering only 0 and 1, `representation` raises no configuration error: it
returns successfully, its chi-square collaborator is invoked on the full
three-row contingency table (witnessed by a p-value collaborator returning
the row count), and the unmapped value 2 heads a row of that table. -/
theorem representation_missing_label_cex :
    (([((0 : ℚ), "a"), (1, "b")]).lookup 2 = none) ∧
    ((2 : ℚ) ∈ (fullTable [[0], [1], [2]] [0, 1, 0] [0, 0, 0]).map
      (colVal ["s"] "s")) ∧
    (representation (fun tbl => (tbl.length : ℚ)) ["s"] "s" [[0], [1], [2]]
        [0, 1, 0] [0, 0, 0] [((0 : ℚ), "a"), (1, "b")]).map
      (fun out => (out.p, out.contingency.map Prod.fst)) =
      .ok (3, [0, 1, 2]) := by
  refine ⟨rfl, by decide, by rfl⟩

/-- C6 amended: a label map omitting a value present in the sensitive column
raises no configuration error — whenever the marginal lookups succeed the
call returns, the contingency table and chi-square p-value are computed over
all values present including the unmapped one, and the subgroup partition
covers only the mapped labels. -/
theorem representation_unmapped_value_proceeds
    (pvalInd : List (ℚ × List ℕ) → ℚ) (cols : List String)
    (sensitive : String) (X : List (List ℚ)) (y preds : List ℕ)
    (labels : List (ℚ × String)) (m : ℚ)
    (hok : exceptOk (representation pvalInd cols sensitive X y preds labels)
      = true)
    (hm : m ∈ (fullTable X y preds).map (colVal cols sensitive))
    (_hmiss : labels.lookup m = none) :
    (representation pvalInd cols sensitive X y preds labels).map
        (fun out => (out.contingency, out.p, out.sens_df.map Prod.fst)) =
      .ok (representationContTable cols sensitive X y preds,
           pvalInd (representationContTable cols sensitive X y preds),
           labels.map Prod.snd) ∧
    m ∈ (representationContTable cols sensitive X y preds).map Prod.fst := by
  cases hrep : representation pvalInd cols sensitive X y preds labels with
  | error e =>
    rw [hrep] at hok
    cases hok
  | ok out =>
    obtain ⟨hc, _, hp, hs⟩ :=
      representation_ok_inv pvalInd cols sensitive X y preds labels out hrep
    constructor
    · simp only [Except.map]
      rw [hc, hp, hs]
      simp [sensDf, List.map_map]
    · unfold representationContTable crosstabCounts
      simp only [List.map_map]
      simpa using mem_distinctSorted hm

/-- Witness for the amended C6 on the three-valued sensitive column. -/
theorem representation_unmapped_value_proceeds_witness :
    exceptOk (representation (fun _ => 0) ["s"] "s" [[0], [1], [2]] [0, 1, 0]
      [0, 0, 0] [((0 : ℚ), "a"), (1, "b")]) = true ∧
    ((2 : ℚ) ∈ (fullTable [[0], [1], [2]] [0, 1, 0] [0, 0, 0]).map
      (colVal ["s"] "s")) ∧
    (([((0 : ℚ), "a"), (1, "b")]).lookup 2 = none) ∧
    ((representation (fun _ => 0) ["s"] "s" [[0], [1], [2]] [0, 1, 0] [0, 0, 0]
        [((0 : ℚ), "a"), (1, "b")]).map
        (fun out => (out.contingency, out.p, out.sens_df.map Prod.fst)) =
      .ok (representationContTable ["s"] "s" [[0], [1], [2]] [0, 1, 0] [0, 0, 0],
           (0 : ℚ),
           ([((0 : ℚ), "a"), (1, "b")]).map Prod.snd) ∧
     (2 : ℚ) ∈ (representationContTable ["s"] "s" [[0], [1], [2]] [0, 1, 0]
       [0, 0, 0]).map Prod.fst) :=
  ⟨rfl, by decide, rfl,
   representation_unmapped_value_proceeds (fun _ => 0) ["s"] "s" [[0], [1], [2]]
     [0, 1, 0] [0, 0, 0] [((0 : ℚ), "a"), (1, "b")] 2 rfl (by decide) rfl⟩

/-- Membership transfers out of the sorted distinct values. -/
theorem mem_of_mem_distinctSorted {a : ℚ} {l : List ℚ}
    (h : a ∈ distinctSorted l) : a ∈ l :=
  List.mem_dedup.mp ((List.perm_insertionSort _ _).mem_iff.mp h)

/-- Dividing a sum of counts term by term. -/
theorem sum_map_div_counts (l : List ℕ) (S : ℚ) :
    (l.map (fun c : ℕ => (c : ℚ) / S)).sum = ((l.sum : ℕ) : ℚ) / S := by
  induction l with
  | nil => simp
  | cons x xs ih => simp [ih, add_div]

/-- A value appearing in the row column has a positive row total in the
crosstab of two index-aligned columns. -/
theorem crosstab_row_total_pos (rs cs : List ℚ) (hlen : rs.length = cs.length)
    {a : ℚ} (ha : a ∈ rs) :
    0 < ((distinctSorted cs).map (countPair rs cs a)).sum := by
  obtain ⟨i, hi, hget⟩ := List.getElem_of_mem ha
  have hic : i < cs.length := hlen ▸ hi
  have hiz : i < (rs.zip cs).length := by
    rw [List.length_zip, hlen]
    simpa using hic
  have hpair : (a, cs[i]) ∈ rs.zip cs := by
    have hmem := List.getElem_mem hiz
    rwa [List.getElem_zip, hget] at hmem
  have hcnt : 0 < countPair rs cs a cs[i] := by
    unfold countPair
    have hmemf : (a, cs[i]) ∈ (rs.zip cs).filter (fun q => q.1 = a ∧ q.2 = cs[i]) :=
      List.mem_filter.mpr ⟨hpair, by simp⟩
    exact List.length_pos.mpr (List.ne_nil_of_mem hmemf)
  have hmemc : countPair rs cs a cs[i] ∈
      (distinctSorted cs).map (countPair rs cs a) :=
    List.mem_map_of_mem _ (mem_distinctSorted (List.getElem_mem hic))
  calc 0 < countPair rs cs a cs[i] := hcnt
    _ ≤ _ := List.single_le_sum (fun x _ => Nat.zero_le x) _ hmemc

/-- Every row of the row-normalized crosstab of two index-aligned columns
sums to exactly 1. -/
theorem crosstabNorm_row_sum (rs cs : List ℚ) (hlen : rs.length = cs.length)
    (row : ℚ × List ℚ) (hrow : row ∈ crosstabNorm rs cs) :
    row.2.sum = 1 := by
  unfold crosstabNorm at hrow
  obtain ⟨crow, hcrow, heq⟩ := List.mem_map.mp hrow
  unfold crosstabCounts at hcrow
  obtain ⟨a, ha, heqc⟩ := List.mem_map.mp hcrow
  rw [← heq, ← heqc]
  dsimp only
  rw [sum_map_div_counts]
  have hpos := crosstab_row_total_pos rs cs hlen (mem_of_mem_distinctSorted ha)
  have hne : ((((distinctSorted cs).map (countPair rs cs a)).sum : ℕ) : ℚ) ≠ 0 := by
    exact_mod_cast Nat.pos_iff_ne_zero.mp hpos
  exact div_self hne

/-- C7: every row of the row-normalized contingency table built by
`representation` (sensitive group × target label, `normalize='index'`) sums
to exactly 1, hence to 1 within the 1e-9 tolerance. -/
theorem representationPct_rows_sum_one (cols : List String) (sensitive : String)
    (X : List (List ℚ)) (y preds : List ℕ) (row : ℚ × List ℚ)
    (hrow : row ∈ representationPctTable cols sensitive X y preds) :
    row.2.sum = 1 ∧ |row.2.sum - 1| ≤ 1 / 1000000000 := by
  unfold representationPctTable at hrow
  have h := crosstabNorm_row_sum _ _ (by simp) row hrow
  exact ⟨h, by rw [h]; norm_num⟩

/-- Witness for C7 on a concrete two-record dataset. -/
theorem representationPct_rows_sum_one_witness :
    (((0 : ℚ), [(1 : ℚ), 0]) ∈
      representationPctTable ["s"] "s" [[0], [1]] [0, 1] [0, 1]) ∧
    (((0 : ℚ), [(1 : ℚ), 0]).2.sum = 1 ∧
      |((0 : ℚ), [(1 : ℚ), 0]).2.sum - 1| ≤ 1 / 1000000000) := by
  have hct : crosstabCounts
      ((fullTable [[0], [1]] [0, 1] [0, 1]).map (colVal ["s"] "s"))
      ((fullTable [[0], [1]] [0, 1] [0, 1]).map (fun r => ((r.t : ℚ)))) =
      [((0 : ℚ), [1, 0]), (1, [0, 1])] := by decide
  have hmem : ((0 : ℚ), [(1 : ℚ), 0]) ∈
      representationPctTable ["s"] "s" [[0], [1]] [0, 1] [0, 1] := by
    unfold representationPctTable crosstabNorm
    rw [hct]
    norm_num
  exact ⟨hmem, representationPct_rows_sum_one ["s"] "s" [[0], [1]] [0, 1] [0, 1]
    ((0 : ℚ), [(1 : ℚ), 0]) hmem⟩

/-! ## Caller-owned state

`identify_bias` and `understand_shap` read `self.X_test` / `self.y_test`.
To state that no analysis mutates the caller's data we thread an explicit
state through each method: `X_test.copy()` (source lines 109, 538) reads the
state and yields a value copy; Python statements that mutated a
caller-visible object would have to return an updated state, and none do —
the column assignments of lines 113-114 and 539-540 target the copy. -/

/-- The caller-supplied data the `FairDetect` object holds. -/
structure AuditState where
  X_test : List (List ℚ)
  y_test : List ℕ
deriving DecidableEq, Repr

/-- `self.X_test.copy()`: reads the state, returns a value copy. -/
def dfCopy (s : AuditState) : AuditState × List (List ℚ) := (s, s.X_test)

/-- Reading `self.y_test`. -/
def readY (s : AuditState) : AuditState × List ℕ := (s, s.y_test)

/-- `representation` as a stateful method call (lines 109-144, invoked with
`self.X_test`, `self.y_test`). -/
def representationProc (pvalInd : List (ℚ × List ℕ) → ℚ) (cols : List String)
    (sensitive : String) (preds : List ℕ) (labels : List (ℚ × String))
    (s : AuditState) : AuditState × Except String RepOut :=
  let (s1, xcopy) := dfCopy s
  let (s2, yv) := readY s1
  (s2, representation pvalInd cols sensitive xcopy yv preds labels)

/-- `ability` as a stateful method call (lines 193-202): reads the sensitive
column of `self.X_test` and `self.y_test`, builds the by-group metric frame. -/
def abilityProc (cols : List String) (sensitive : String) (preds : List ℕ)
    (s : AuditState) : AuditState × List (String × List ℚ) :=
  (s, byGroupDict
    (s.X_test.map (fun row : List ℚ => row.getD (colIdx cols sensitive) 0))
    s.y_test preds)

/-- `predictive` as a stateful method call (lines 345-354): touches no
attribute of `self` at all. -/
def predictiveProc (pval : ℕ → ℚ → ℚ) (labels : List (ℚ × String))
    (sdf : List (String × List FRow)) (s : AuditState) :
    AuditState × (List (String × ℚ) × ℚ) :=
  (s, predictive pval labels sdf)

/-- The sampling pipeline of `understand_shap` as a stateful method call
(lines 538-586). -/
def understandShapProc (cols : List String) (sensitive : String)
    (preds : List ℕ) (g : ℚ) (a : ℕ) (seed : ℕ) (s : AuditState) :
    AuditState × Except String ℕ :=
  let (s1, xcopy) := dfCopy s
  let (s2, yv) := readY s1
  (s2, understandShapSample cols sensitive xcopy yv preds g a seed)

/-- C8: no analysis call changes the caller-supplied test features or labels:
each method returns the state it was given, and its outputs are freshly
computed values. -/
theorem analyses_do_not_mutate_state (pvalInd : List (ℚ × List ℕ) → ℚ)
    (pval : ℕ → ℚ → ℚ) (cols : List String) (sensitive : String)
    (preds : List ℕ) (labels : List (ℚ × String))
    (sdf : List (String × List FRow)) (g : ℚ) (a : ℕ) (seed : ℕ)
    (s : AuditState) :
    (representationProc pvalInd cols sensitive preds labels s).1 = s ∧
    (abilityProc cols sensitive preds s).1 = s ∧
    (predictiveProc pval labels sdf s).1 = s ∧
    (understandShapProc cols sensitive preds g a seed s).1 = s :=
  ⟨rfl, rfl, rfl, rfl⟩

/-! ## Determinism

Python's `random` module holds a global generator; the only call into it in
the whole library is the `randrange` of `understand_shap` line 586.  We
thread an explicit random-source value: the three statistical analyses
ignore and pass it through, the sampler consumes it. -/

/-- `representation` with the random source threaded (it does not use it). -/
def representationRng (pvalInd : List (ℚ × List ℕ) → ℚ) (cols : List String)
    (sensitive : String) (X : List (List ℚ)) (y preds : List ℕ)
    (labels : List (ℚ × String)) (rng : ℕ) : Except String RepOut × ℕ :=
  (representation pvalInd cols sensitive X y preds labels, rng)

/-- `ability` followed by `ability_metrics` with the random source threaded
(neither uses it). -/
def abilityMetricsRng (pval : ℕ → ℚ → ℚ) (ss : List ℚ) (ts ps : List ℕ)
    (rng : ℕ) : List (String × ℚ) × ℕ :=
  (dicPVal pval (byGroupDict ss ts ps), rng)

/-- `predictive` with the random source threaded (it does not use it). -/
def predictiveRng (pval : ℕ → ℚ → ℚ) (labels : List (ℚ × String))
    (sdf : List (String × List FRow)) (rng : ℕ) :
    (List (String × ℚ) × ℚ) × ℕ :=
  (predictive pval labels sdf, rng)

/-- The sampling step of `understand_shap` with the random source threaded:
it consumes the source. -/
def understandShapRng (cols : List String) (sensitive : String)
    (X : List (List ℚ)) (y preds : List ℕ) (g : ℚ) (a : ℕ) (rng : ℕ) :
    Except String ℕ × ℕ :=
  (understandShapSample cols sensitive X y preds g a rng, rng + 1)

/-- C9: the representation, ability and predictive analyses are
deterministic — their numeric outputs are independent of the random source —
while the attribution sampler's record does depend on it (two concrete
random-source values pick the two different records of a two-record
cohort). -/
theorem analyses_deterministic (pvalInd : List (ℚ × List ℕ) → ℚ)
    (pval : ℕ → ℚ → ℚ) (cols : List String) (sensitive : String)
    (X : List (List ℚ)) (y preds : List ℕ) (labels : List (ℚ × String))
    (ss : List ℚ) (ts ps : List ℕ) (sdf : List (String × List FRow))
    (rng1 rng2 : ℕ) :
    (representationRng pvalInd cols sensitive X y preds labels rng1).1 =
      (representationRng pvalInd cols sensitive X y preds labels rng2).1 ∧
    (abilityMetricsRng pval ss ts ps rng1).1 =
      (abilityMetricsRng pval ss ts ps rng2).1 ∧
    (predictiveRng pval labels sdf rng1).1 =
      (predictiveRng pval labels sdf rng2).1 ∧
    (understandShapRng ["s", "f"] "s" [[1, 5], [1, 6]] [0, 0] [1, 1] 1 1 0).1 =
      .ok 0 ∧
    (understandShapRng ["s", "f"] "s" [[1, 5], [1, 6]] [0, 0] [1, 1] 1 1 1).1 =
      .ok 1 :=
  ⟨rfl, rfl, rfl, rfl, rfl⟩
